import Mathlib

/-!
Shallow embedding of the course CRUD data layer of `src/main.py`
(`ayoub_prof_backend`): the JSON-file-as-table store (`read_courses`,
`write_courses`), the blob directory, and the five service operations
(`create_course`, `get_courses`, `get_course`, `update_course`,
`delete_course`, `download_course_file`).

Modelling conventions:
- Python `datetime` values are modelled by `Nat` timestamps; each call of
  `datetime.now()` in a handler is one explicit timestamp argument, in
  source order (so `create_course`, which calls `datetime.now()` twice,
  takes two).
- `json.dump(..., default=str)` stringifies `datetime` fields; a record
  field that may hold either a `datetime` (freshly built `Course`) or the
  string read back from the JSON file is modelled by `TimeVal`.
- The table file on disk is `TableFile`: absent, present-but-malformed
  (any content `json.load` raises `JSONDecodeError` on), or a well-formed
  JSON array of records.
- The upload directory is an association list from path to blob content;
  writing a file prepends (the newest entry shadows older ones, i.e.
  overwrites).
- `HTTPException(status_code, detail)` is modelled by `Err`.
-/

namespace CourseApp

abbrev Timestamp := Nat

abbrev Bytes := List Nat

/-- Model of Python `str(datetime)` (the `default=str` hook of
`json.dump`): an injective rendering of the timestamp as a string. -/
def encodeTime (t : Timestamp) : String := toString t

/-- A Python value sitting in a record's `created_at`/`updated_at` slot:
either a `datetime` (field of a freshly constructed `Course` model) or the
string that `json.load` returns for a record read back from the file. -/
inductive TimeVal where
  | dt (t : Timestamp)
  | str (s : String)
deriving DecidableEq, Repr

/-- `json.dump(..., default=str)` on one timestamp slot: a `datetime` is
rendered through `str`, a string is written as-is. -/
def TimeVal.serialize : TimeVal → TimeVal
  | .dt t => .str (encodeTime t)
  | .str s => .str s

/-- The `Course` record of `src/main.py` (pydantic model / JSON object),
fields in source order. -/
structure Course where
  name : String
  description : String
  pdf_path : String
  created_at : TimeVal
  updated_at : TimeVal
  level : String
deriving DecidableEq, Repr

/-- Effect of `json.dump(..., default=str)` followed by `json.load` on one
record: every field survives verbatim except the timestamp slots, which
are stringified. -/
def serializeCourse (c : Course) : Course :=
  { c with created_at := c.created_at.serialize,
           updated_at := c.updated_at.serialize }

/-- The on-disk state of `COURSES_FILE`. -/
inductive TableFile where
  | absent
  | malformed
  | table (rows : List Course)
deriving DecidableEq, Repr

/-- `read_courses` of `src/main.py`: absent file gives `[]`,
`JSONDecodeError` gives `[]`, otherwise the parsed array. -/
def read_courses : TableFile → List Course
  | .absent => []
  | .malformed => []
  | .table rows => rows

/-- `write_courses` of `src/main.py`: the whole list is serialized with
`json.dump(..., default=str)` and overwrites the table file. -/
def write_courses (courses : List Course) : TableFile :=
  .table (courses.map serializeCourse)

/-- The blob directory: path ↦ file content, newest entry first. -/
abbrev Blobs := List (String × Bytes)

/-- `open(path, "wb").write(content)`: (over)writes the blob at `path`. -/
def setBlob (blobs : Blobs) (p : String) (content : Bytes) : Blobs :=
  (p, content) :: blobs

/-- Reading the blob at `path`, `none` when no file exists there. -/
def getBlob (blobs : Blobs) (p : String) : Option Bytes :=
  List.lookup p blobs

/-- `os.path.exists(path)` restricted to the blob directory. -/
def blobExists (blobs : Blobs) (p : String) : Bool :=
  (getBlob blobs p).isSome

/-- Whole persistent state: the table file plus the blob directory. -/
structure St where
  file : TableFile
  blobs : Blobs
deriving DecidableEq, Repr

/-- `HTTPException(status_code=..., detail=...)`. -/
structure Err where
  status : Nat
  detail : String
deriving DecidableEq, Repr

def errNotPdf : Err := ⟨400, "Le fichier doit être un PDF"⟩

def errCourseNotFound : Err := ⟨404, "Course not found"⟩

def errCoursNonTrouve : Err := ⟨404, "Cours non trouvé"⟩

def errFichierNonTrouve : Err := ⟨404, "Fichier PDF non trouvé"⟩

def UPLOAD_DIR : String := "pdf_files"

/-- Python `f.startswith("/")`, phrased on the character list. -/
def startsWithSlash (f : String) : Bool :=
  ("/".data).isPrefixOf f.data

/-- Python `filename.endswith(".pdf")`, phrased on the character list. -/
def endsWithPdf (f : String) : Bool :=
  (".pdf".data).isSuffixOf f.data

/-- `os.path.join(d, f)`: an absolute second component discards `d`. -/
def joinPath (d f : String) : String :=
  if startsWithSlash f then f else d ++ "/" ++ f

/-- Whether a path string sits under the upload directory, in the sense of
having `"pdf_files/"` as a prefix. -/
def underUploadDir (p : String) : Bool :=
  ((UPLOAD_DIR ++ "/").data).isPrefixOf p.data

/-- One step of extracting `Path(p).name`: restart after each `/`. -/
def baseNameStep (acc : List Char) (ch : Char) : List Char :=
  if ch = '/' then [] else acc ++ [ch]

/-- `Path(p).name`: the segment after the last `/`. -/
def pathName (p : String) : String :=
  ⟨p.data.foldl baseNameStep []⟩

/-- `create_course` of `src/main.py`. `t1` and `t2` are the two successive
`datetime.now()` readings (for `created_at` and `updated_at`, in source
order). Returns the handler's result together with the state after the
call. -/
def create_course (st : St) (name description level filename : String)
    (content : Bytes) (t1 t2 : Timestamp) : Except Err Course × St :=
  if endsWithPdf filename then
    let pdf_path := joinPath UPLOAD_DIR filename
    let blobs := setBlob st.blobs pdf_path content
    let course : Course :=
      { name := name, description := description, pdf_path := pdf_path,
        created_at := .dt t1, updated_at := .dt t2, level := level }
    let courses := read_courses st.file ++ [course]
    (.ok course, { file := write_courses courses, blobs := blobs })
  else
    (.error errNotPdf, st)

/-- `get_courses` of `src/main.py` (the `list` operation). -/
def get_courses (st : St) : List Course :=
  read_courses st.file

/-- `get_course` of `src/main.py`: first record whose `name` matches. -/
def get_course (st : St) (course_name : String) : Except Err Course :=
  match (read_courses st.file).find? (fun c => c.name == course_name) with
  | some c => .ok c
  | none => .error errCourseNotFound

/-- The `for index, course in enumerate(courses)` loop of `update_course`:
on the first match, build the stored record from the request body with
`created_at` taken from the old record and `updated_at := now`, put it at
that index, and return it together with the new list. -/
def updateLoop (course_name : String) (u : Course) (t : Timestamp) :
    List Course → Option (Course × List Course)
  | [] => none
  | c :: rest =>
    if c.name == course_name then
      let u' : Course :=
        { u with created_at := c.created_at, updated_at := .dt t }
      some (u', u' :: rest)
    else
      match updateLoop course_name u t rest with
      | some (r, rest') => some (r, c :: rest')
      | none => none

/-- `update_course` of `src/main.py`. `t` is the `datetime.now()` reading. -/
def update_course (st : St) (course_name : String) (updated_course : Course)
    (t : Timestamp) : Except Err Course × St :=
  match updateLoop course_name updated_course t (read_courses st.file) with
  | some (r, courses) => (.ok r, { st with file := write_courses courses })
  | none => (.error errCourseNotFound, st)

/-- The scan-and-`pop` loop of `delete_course`: remove the first record
whose `name` matches and return it with the remaining list. -/
def deleteLoop (course_name : String) :
    List Course → Option (Course × List Course)
  | [] => none
  | c :: rest =>
    if c.name == course_name then
      some (c, rest)
    else
      match deleteLoop course_name rest with
      | some (r, rest') => some (r, c :: rest')
      | none => none

/-- `delete_course` of `src/main.py`. -/
def delete_course (st : St) (course_name : String) : Except Err Course × St :=
  match deleteLoop course_name (read_courses st.file) with
  | some (r, courses) => (.ok r, { st with file := write_courses courses })
  | none => (.error errCourseNotFound, st)

/-- `download_course_file` of `src/main.py`: look up by name, then check
the blob exists, then serve it under `Path(file_path).name`. -/
def download_course_file (st : St) (course_name : String) :
    Except Err (Bytes × String) :=
  match (read_courses st.file).find? (fun c => c.name == course_name) with
  | some c =>
    match getBlob st.blobs c.pdf_path with
    | some content => .ok (content, pathName c.pdf_path)
    | none => .error errFichierNonTrouve
  | none => .error errCoursNonTrouve

deriving instance DecidableEq for Except

/-! ### Concrete states used by witnesses and counterexamples -/

def cW : Course := ⟨"A", "d", "p", .str "7", .str "8", "L"⟩

def stW : St := ⟨.table [cW], []⟩

def uW : Course := ⟨"B", "d2", "p2", .dt 5, .dt 5, "Bac"⟩

def stEmpty : St := ⟨.absent, []⟩

def cCreated : Course := ⟨"n", "d", "pdf_files/a.pdf", .dt 0, .dt 1, "l"⟩

def cDt : Course := ⟨"A", "d", "p", .dt 0, .dt 0, "l"⟩

def cD : Course := ⟨"A", "d", "pdf_files/a.pdf", .str "0", .str "0", "l"⟩

def stD : St := ⟨.table [cD], [("pdf_files/a.pdf", [3])]⟩

def stB : St := ⟨.absent, [("pdf_files/old.pdf", [1])]⟩
/-! ### Helper lemmas about the scan loops -/

theorem updateLoop_spec_none (n : String) (u : Course) (t : Timestamp)
    (l : List Course) (h : ∀ c ∈ l, c.name ≠ n) :
    updateLoop n u t l = none := by
  induction l with
  | nil => rfl
  | cons c rest ih =>
    have hc : (c.name == n) = false := by
      simpa using h c (List.mem_cons_self c rest)
    simp [updateLoop, hc, ih fun x hx => h x (List.mem_cons_of_mem _ hx)]

theorem updateLoop_spec_some (n : String) (u : Course) (t : Timestamp)
    (l : List Course) (c0 : Course)
    (h : l.find? (fun c => c.name == n) = some c0) :
    updateLoop n u t l =
      some ({ u with created_at := c0.created_at, updated_at := .dt t },
        l.set (l.findIdx (fun c => c.name == n))
          { u with created_at := c0.created_at, updated_at := .dt t }) := by
  induction l with
  | nil => simp at h
  | cons c rest ih =>
    by_cases hc : (c.name == n) = true
    · simp only [List.find?_cons, hc] at h
      injection h with h
      subst h
      simp [updateLoop, hc, List.findIdx_cons]
    · have hc' : (c.name == n) = false := by simpa using hc
      simp only [List.find?_cons, hc'] at h
      simp [updateLoop, hc', ih h, List.findIdx_cons]

theorem deleteLoop_spec_none (n : String) (l : List Course)
    (h : ∀ c ∈ l, c.name ≠ n) :
    deleteLoop n l = none := by
  induction l with
  | nil => rfl
  | cons c rest ih =>
    have hc : (c.name == n) = false := by
      simpa using h c (List.mem_cons_self c rest)
    simp [deleteLoop, hc, ih fun x hx => h x (List.mem_cons_of_mem _ hx)]

theorem deleteLoop_spec_some (n : String) (l : List Course) (c0 : Course)
    (h : l.find? (fun c => c.name == n) = some c0) :
    deleteLoop n l = some (c0, l.eraseP (fun c => c.name == n)) := by
  induction l with
  | nil => simp at h
  | cons c rest ih =>
    by_cases hc : (c.name == n) = true
    · simp only [List.find?_cons, hc] at h
      injection h with h
      subst h
      simp [deleteLoop, hc, List.eraseP_cons]
    · have hc' : (c.name == n) = false := by simpa using hc
      simp only [List.find?_cons, hc'] at h
      simp [deleteLoop, hc', ih h, List.eraseP_cons]

theorem find?_eq_none_of_miss (n : String) (l : List Course)
    (h : ∀ c ∈ l, c.name ≠ n) :
    l.find? (fun c => c.name == n) = none := by
  rw [List.find?_eq_none]
  intro x hx
  simpa using h x hx

/-! ### Helper lemmas about basename extraction -/

theorem foldl_baseNameStep_no_slash (l : List Char) (acc : List Char)
    (h : ∀ ch ∈ l, ch ≠ '/') :
    List.foldl baseNameStep acc l = acc ++ l := by
  induction l generalizing acc with
  | nil => simp
  | cons ch rest ih =>
    have hch : ch ≠ '/' := h ch (List.mem_cons_self _ _)
    simp [baseNameStep, hch, ih (acc ++ [ch])
      fun x hx => h x (List.mem_cons_of_mem _ hx)]

theorem pathName_joinPath (f : String) (h : ∀ ch ∈ f.data, ch ≠ '/') :
    pathName (joinPath UPLOAD_DIR f) = f := by
  have hslash : startsWithSlash f = false := by
    unfold startsWithSlash
    cases hd : f.data with
    | nil => decide
    | cons c cs =>
      have hc : c ≠ '/' := h c (by rw [hd]; exact List.mem_cons_self _ _)
      have : ('/' == c) = false := by simpa using fun e => hc e.symm
      simp [List.isPrefixOf, this]
  have hjoin : joinPath UPLOAD_DIR f = "pdf_files/" ++ f := by
    unfold joinPath
    rw [hslash]
    simp
    rfl
  rw [hjoin]
  unfold pathName
  rw [String.data_append, List.foldl_append]
  have hbase : List.foldl baseNameStep [] "pdf_files/".data = [] := by decide
  rw [hbase, foldl_baseNameStep_no_slash f.data [] h]
  rfl


/-- Claim C1 (counterexample): the claim says the stored `name` field is
unchanged by update regardless of the name in the request body; but
updating the single record named "A" with a body named "B" leaves a table
whose only record is named "B", not "A". -/
theorem update_overwrites_name_counterexample :
    (read_courses (update_course stW "A" uW 9).2.file).map Course.name = ["B"] ∧
    (read_courses (update_course stW "A" uW 9).2.file).map Course.name ≠ ["A"] ∧
    (update_course stW "A" uW 9).1 =
      .ok { uW with created_at := .str "7", updated_at := .dt 9 } := by
  decide

/-- Claim C1 (amended): update replaces the first matching record wholesale with
the request body — `name` included — preserving only `created_at` from the
old record and stamping `updated_at := now`; in particular the stored name
after the call is the body's name, not necessarily the old one. -/
theorem update_replaces_record_with_body (st : St) (n : String) (u : Course)
    (t : Timestamp) (c0 : Course)
    (h : (read_courses st.file).find? (fun c => c.name == n) = some c0) :
    update_course st n u t =
      (.ok { u with created_at := c0.created_at, updated_at := .dt t },
       { st with file := write_courses
                      ((read_courses st.file).set
                        ((read_courses st.file).findIdx (fun c => c.name == n))
                        { u with created_at := c0.created_at,
                                 updated_at := .dt t }) }) ∧
    ({ u with created_at := c0.created_at,
              updated_at := TimeVal.dt t } : Course).name = u.name := by
  refine ⟨?_, rfl⟩
  unfold update_course
  rw [updateLoop_spec_some n u t _ c0 h]

/-- Claim C1 (witness for the amended theorem). -/
theorem update_replaces_record_with_body_witness :
    (read_courses stW.file).find? (fun c => c.name == "A") = some cW ∧
    (update_course stW "A" uW 9 =
      (.ok { uW with created_at := cW.created_at, updated_at := .dt 9 },
       { stW with file := write_courses
                      ((read_courses stW.file).set
                        ((read_courses stW.file).findIdx (fun c => c.name == "A"))
                        { uW with created_at := cW.created_at,
                                  updated_at := .dt 9 }) }) ∧
    ({ uW with created_at := cW.created_at,
               updated_at := TimeVal.dt 9 } : Course).name = uW.name) :=
  ⟨by decide, update_replaces_record_with_body stW "A" uW 9 cW (by decide)⟩

/-- Claim C2: a create call whose filename does not end in ".pdf" fails with the
400 error and leaves the whole state (table file and blob directory)
unchanged. -/
theorem create_rejects_non_pdf (st : St)
    (name description level filename : String) (content : Bytes)
    (t1 t2 : Timestamp) (h : endsWithPdf filename = false) :
    create_course st name description level filename content t1 t2 =
      (.error errNotPdf, st) ∧
    errNotPdf.status = 400 := by
  refine ⟨?_, rfl⟩
  unfold create_course
  rw [h]
  simp

/-- Claim C2 (witness). -/
theorem create_rejects_non_pdf_witness :
    endsWithPdf "a.txt" = false ∧
    (create_course stW "n" "d" "l" "a.txt" [1, 2] 3 4 =
      (.error errNotPdf, stW) ∧
    errNotPdf.status = 400) :=
  ⟨by decide, create_rejects_non_pdf stW "n" "d" "l" "a.txt" [1, 2] 3 4 (by decide)⟩

/-- Claim C3: `read_courses` never raises on bad table state — an absent file
and a malformed file both read back as the empty list, and so `list`
returns the empty sequence on both. -/
theorem read_courses_soft_fail :
    read_courses .absent = [] ∧ read_courses .malformed = [] ∧
    get_courses ⟨.absent, []⟩ = [] ∧ get_courses ⟨.malformed, []⟩ = [] := by
  decide

/-- Claim C4: when a record matching the name exists, delete removes exactly the
first matching record (the remaining table is `eraseP` of the old one, and
its length is one less), returns the removed record, and writes the table
back; when no record matches, delete fails with the 404 error and leaves
the state unchanged. -/
theorem delete_first_match_spec (st : St) (n : String) :
    (∀ c0, (read_courses st.file).find? (fun c => c.name == n) = some c0 →
      delete_course st n =
        (.ok c0, { st with file := write_courses
                              ((read_courses st.file).eraseP
                                (fun c => c.name == n)) }) ∧
      ((read_courses st.file).eraseP (fun c => c.name == n)).length + 1 =
        (read_courses st.file).length) ∧
    ((∀ c ∈ read_courses st.file, c.name ≠ n) →
      delete_course st n = (.error errCourseNotFound, st) ∧
      errCourseNotFound.status = 404) := by
  constructor
  · intro c0 h
    constructor
    · unfold delete_course
      rw [deleteLoop_spec_some n _ c0 h]
    · exact List.length_eraseP_add_one
        (List.mem_of_find?_eq_some (p := fun c : Course => c.name == n) h)
        (List.find?_some (p := fun c : Course => c.name == n) h)
  · intro h
    refine ⟨?_, rfl⟩
    unfold delete_course
    rw [deleteLoop_spec_none n _ h]

/-- Claim C4 (witness): instantiates both the hit case and the miss case. -/
theorem delete_first_match_spec_witness :
    ((read_courses stW.file).find? (fun c => c.name == "A") = some cW ∧
     (delete_course stW "A" =
        (.ok cW, { stW with file := write_courses
                               ((read_courses stW.file).eraseP
                                 (fun c => c.name == "A")) }) ∧
      ((read_courses stW.file).eraseP (fun c => c.name == "A")).length + 1 =
        (read_courses stW.file).length)) ∧
    ((∀ c ∈ read_courses stW.file, c.name ≠ "Z") ∧
     (delete_course stW "Z" = (.error errCourseNotFound, stW) ∧
      errCourseNotFound.status = 404)) :=
  ⟨⟨by decide, (delete_first_match_spec stW "A").1 cW (by decide)⟩,
   ⟨by decide, (delete_first_match_spec stW "Z").2 (by decide)⟩⟩

/-- Claim C5: on a hit, update returns a record whose `created_at` is the old
record's, whose `updated_at` is the `now` reading, whose remaining payload
fields come from the request body, and the full table (with that record
replaced at its position) is written back. -/
theorem update_preserves_created_at (st : St) (n : String) (u : Course)
    (t : Timestamp) (c0 : Course)
    (h : (read_courses st.file).find? (fun c => c.name == n) = some c0) :
    ∃ u' : Course,
      update_course st n u t =
        (.ok u', { st with file := write_courses
                              ((read_courses st.file).set
                                ((read_courses st.file).findIdx
                                  (fun c => c.name == n)) u') }) ∧
      u'.created_at = c0.created_at ∧
      u'.updated_at = .dt t ∧
      u'.description = u.description ∧
      u'.pdf_path = u.pdf_path ∧
      u'.level = u.level := by
  refine ⟨{ u with created_at := c0.created_at, updated_at := .dt t },
    ?_, rfl, rfl, rfl, rfl, rfl⟩
  unfold update_course
  rw [updateLoop_spec_some n u t _ c0 h]

/-- Claim C5 (witness). -/
theorem update_preserves_created_at_witness :
    (read_courses stW.file).find? (fun c => c.name == "A") = some cW ∧
    (∃ u' : Course,
      update_course stW "A" uW 9 =
        (.ok u', { stW with file := write_courses
                               ((read_courses stW.file).set
                                 ((read_courses stW.file).findIdx
                                   (fun c => c.name == "A")) u') }) ∧
      u'.created_at = cW.created_at ∧
      u'.updated_at = .dt 9 ∧
      u'.description = uW.description ∧
      u'.pdf_path = uW.pdf_path ∧
      u'.level = uW.level) :=
  ⟨by decide, update_preserves_created_at stW "A" uW 9 cW (by decide)⟩

/-- Claim C8: for a name matching no record of the table, `get_course`,
`update_course`, `delete_course` and `download_course_file` all fail with
a 404 error, and the two mutators leave the state unchanged. -/
theorem lookup_miss_not_found (st : St) (n : String) (u : Course)
    (t : Timestamp) (h : ∀ c ∈ read_courses st.file, c.name ≠ n) :
    get_course st n = .error errCourseNotFound ∧
    update_course st n u t = (.error errCourseNotFound, st) ∧
    delete_course st n = (.error errCourseNotFound, st) ∧
    download_course_file st n = .error errCoursNonTrouve ∧
    errCourseNotFound.status = 404 ∧
    errCoursNonTrouve.status = 404 := by
  have hfind := find?_eq_none_of_miss n _ h
  refine ⟨?_, ?_, ?_, ?_, rfl, rfl⟩
  · unfold get_course
    rw [hfind]
  · unfold update_course
    rw [updateLoop_spec_none n u t _ h]
  · unfold delete_course
    rw [deleteLoop_spec_none n _ h]
  · unfold download_course_file
    rw [hfind]

/-- Claim C8 (witness). -/
theorem lookup_miss_not_found_witness :
    (∀ c ∈ read_courses stW.file, c.name ≠ "Z") ∧
    (get_course stW "Z" = .error errCourseNotFound ∧
    update_course stW "Z" uW 9 = (.error errCourseNotFound, stW) ∧
    delete_course stW "Z" = (.error errCourseNotFound, stW) ∧
    download_course_file stW "Z" = .error errCoursNonTrouve ∧
    errCourseNotFound.status = 404 ∧
    errCoursNonTrouve.status = 404) :=
  ⟨by decide, lookup_miss_not_found stW "Z" uW 9 (by decide)⟩


/-- Claim C6 (counterexample): `create_course` evaluates `datetime.now()` twice,
once for `created_at` and once for `updated_at`; with clock readings 0 and
then 1 the created record has `created_at ≠ updated_at`. -/
theorem create_two_clock_readings_counterexample :
    (create_course stEmpty "n" "d" "l" "a.pdf" [] 0 1).1 = .ok cCreated ∧
    cCreated.created_at ≠ cCreated.updated_at := by
  decide

/-- Claim C6 (amended): every successful create stamps `created_at` with the
first `now()` reading and `updated_at` with the second; the two are equal
exactly when the clock did not advance between the two calls, in
particular whenever the two readings coincide. -/
theorem create_timestamps_from_two_readings (st : St)
    (name description level filename : String) (content : Bytes)
    (t1 t2 : Timestamp) (h : endsWithPdf filename = true) :
    ∃ c : Course,
      (create_course st name description level filename content t1 t2).1 =
        .ok c ∧
      c.created_at = .dt t1 ∧
      c.updated_at = .dt t2 ∧
      (t1 = t2 → c.created_at = c.updated_at) := by
  refine ⟨⟨name, description, joinPath UPLOAD_DIR filename,
      .dt t1, .dt t2, level⟩, ?_, rfl, rfl, ?_⟩
  · simp [create_course, h]
  · intro he
    rw [he]

/-- Claim C6 (witness for the amended theorem). -/
theorem create_timestamps_from_two_readings_witness :
    endsWithPdf "a.pdf" = true ∧
    (∃ c : Course,
      (create_course stEmpty "n" "d" "l" "a.pdf" [] 3 3).1 = .ok c ∧
      c.created_at = .dt 3 ∧
      c.updated_at = .dt 3 ∧
      (3 = 3 → c.created_at = c.updated_at)) :=
  ⟨by decide,
   create_timestamps_from_two_readings stEmpty "n" "d" "l" "a.pdf" [] 3 3
     (by decide)⟩

/-- Claim C7 (counterexample): writing a course whose timestamps are `datetime`
values and reading it back does not return it field-identically — the
timestamp slots come back as the strings `json.dump(..., default=str)`
produced, not as the original values. -/
theorem round_trip_stringifies_timestamps_counterexample :
    read_courses (write_courses [cDt]) ≠ [cDt] ∧
    read_courses (write_courses [cDt]) =
      [⟨"A", "d", "p", .str "0", .str "0", "l"⟩] := by
  decide

/-- Claim C7 (amended): the write-then-read round trip returns each record with
`name`, `description`, `pdf_path` and `level` identical and the timestamp
slots passed through the string serialization; on records whose timestamp
slots are already strings (as for every record previously read from the
file) the round trip is the identity. -/
theorem round_trip_up_to_serialization (l : List Course) :
    read_courses (write_courses l) = l.map serializeCourse ∧
    (∀ c : Course, (serializeCourse c).name = c.name ∧
      (serializeCourse c).description = c.description ∧
      (serializeCourse c).pdf_path = c.pdf_path ∧
      (serializeCourse c).level = c.level) ∧
    (∀ nm ds pp lv s s' : String,
      serializeCourse ⟨nm, ds, pp, .str s, .str s', lv⟩ =
        ⟨nm, ds, pp, .str s, .str s', lv⟩) :=
  ⟨rfl, fun _ => ⟨rfl, rfl, rfl, rfl⟩, fun _ _ _ _ _ _ => rfl⟩

/-- Claim C7 (witness for the amended theorem). -/
theorem round_trip_up_to_serialization_witness :
    read_courses (write_courses [cW]) = [cW].map serializeCourse ∧
    serializeCourse ⟨"A", "d", "p", .str "7", .str "8", "L"⟩ =
      ⟨"A", "d", "p", .str "7", .str "8", "L"⟩ :=
  ⟨(round_trip_up_to_serialization [cW]).1,
   (round_trip_up_to_serialization [cW]).2.2 "A" "d" "p" "L" "7" "8"⟩

/-- Claim C9: download distinguishes three cases — no matching record gives the
404 "Cours non trouvé" error; a matching record whose `pdf_path` has no
blob on disk gives the distinct 404 "Fichier PDF non trouvé" error; a
matching record with a blob returns the blob content together with the
basename of the stored path, which for slash-free filenames is the
original upload filename. -/
theorem download_three_cases (st : St) (n : String) :
    ((∀ c ∈ read_courses st.file, c.name ≠ n) →
      download_course_file st n = .error errCoursNonTrouve) ∧
    (∀ c0, (read_courses st.file).find? (fun c => c.name == n) = some c0 →
      (getBlob st.blobs c0.pdf_path = none →
        download_course_file st n = .error errFichierNonTrouve) ∧
      (∀ content, getBlob st.blobs c0.pdf_path = some content →
        download_course_file st n = .ok (content, pathName c0.pdf_path))) ∧
    errCoursNonTrouve ≠ errFichierNonTrouve ∧
    (∀ f : String, (∀ ch ∈ f.data, ch ≠ '/') →
      pathName (joinPath UPLOAD_DIR f) = f) := by
  refine ⟨?_, ?_, by decide, pathName_joinPath⟩
  · intro h
    simp [download_course_file, find?_eq_none_of_miss n _ h]
  · intro c0 h
    constructor
    · intro hb
      simp [download_course_file, h, hb]
    · intro content hb
      simp [download_course_file, h, hb]

/-- Claim C9 (witness): instantiates the success case, the missing-file case and
the basename fact. -/
theorem download_three_cases_witness :
    ((read_courses stD.file).find? (fun c => c.name == "A") = some cD ∧
     getBlob stD.blobs cD.pdf_path = some [3] ∧
     download_course_file stD "A" = .ok ([3], pathName cD.pdf_path)) ∧
    ((∀ ch ∈ "a.pdf".data, ch ≠ '/') ∧
     pathName (joinPath UPLOAD_DIR "a.pdf") = "a.pdf") ∧
    (getBlob stW.blobs cW.pdf_path = none ∧
     download_course_file stW "A" = .error errFichierNonTrouve) :=
  ⟨⟨by decide, by decide,
    ((download_three_cases stD "A").2.1 cD (by decide)).2 [3] (by decide)⟩,
   ⟨by decide, (download_three_cases stD "A").2.2.2 "a.pdf" (by decide)⟩,
   ⟨by decide,
    ((download_three_cases stW "A").2.1 cW (by decide)).1 (by decide)⟩⟩

/-- Claim C10 (counterexample): the claim says every created blob path lies
inside the upload directory; but `os.path.join` discards the directory for
an absolute filename, so creating with filename "/evil.pdf" (which ends in
".pdf") writes the blob at "/evil.pdf", outside the upload directory, and
stores that path in `pdf_path`. -/
theorem create_blob_path_escape_counterexample :
    endsWithPdf "/evil.pdf" = true ∧
    (create_course stB "n" "d" "l" "/evil.pdf" [9] 0 0).1 =
      .ok ⟨"n", "d", "/evil.pdf", .dt 0, .dt 0, "l"⟩ ∧
    (create_course stB "n" "d" "l" "/evil.pdf" [9] 0 0).2.blobs =
      [("/evil.pdf", [9]), ("pdf_files/old.pdf", [1])] ∧
    underUploadDir "/evil.pdf" = false := by
  decide

/-- Claim C10 (amended): for a create call whose filename ends in ".pdf" and is
not absolute, the blob content is written to `UPLOAD_DIR ++ "/" ++
filename` — deterministic in the filename and having the upload directory
as a prefix — overwriting any blob previously at that path, and the
record's `pdf_path` is set to that same path. -/
theorem create_blob_path_spec (st : St)
    (name description level filename : String) (content : Bytes)
    (t1 t2 : Timestamp) (hpdf : endsWithPdf filename = true)
    (hrel : startsWithSlash filename = false) :
    ∃ c : Course,
      create_course st name description level filename content t1 t2 =
        (.ok c,
         ⟨write_courses (read_courses st.file ++ [c]),
          setBlob st.blobs (UPLOAD_DIR ++ "/" ++ filename) content⟩) ∧
      c.pdf_path = UPLOAD_DIR ++ "/" ++ filename ∧
      underUploadDir c.pdf_path = true ∧
      getBlob (setBlob st.blobs (UPLOAD_DIR ++ "/" ++ filename) content)
        (UPLOAD_DIR ++ "/" ++ filename) = some content := by
  have hjoin : joinPath UPLOAD_DIR filename = UPLOAD_DIR ++ "/" ++ filename := by
    unfold joinPath
    rw [hrel]
    simp
  refine ⟨⟨name, description, UPLOAD_DIR ++ "/" ++ filename,
      .dt t1, .dt t2, level⟩, ?_, rfl, ?_, ?_⟩
  · simp [create_course, hpdf, hjoin]
  · show ((UPLOAD_DIR ++ "/").data).isPrefixOf
      ((UPLOAD_DIR ++ "/" ++ filename).data) = true
    rw [List.isPrefixOf_iff_prefix, String.data_append]
    exact List.prefix_append _ _
  · simp [getBlob, setBlob, List.lookup]

/-- Claim C10 (witness for the amended theorem). -/
theorem create_blob_path_spec_witness :
    endsWithPdf "a.pdf" = true ∧ startsWithSlash "a.pdf" = false ∧
    (∃ c : Course,
      create_course stB "n" "d" "l" "a.pdf" [7] 2 2 =
        (.ok c,
         ⟨write_courses (read_courses stB.file ++ [c]),
          setBlob stB.blobs (UPLOAD_DIR ++ "/" ++ "a.pdf") [7]⟩) ∧
      c.pdf_path = UPLOAD_DIR ++ "/" ++ "a.pdf" ∧
      underUploadDir c.pdf_path = true ∧
      getBlob (setBlob stB.blobs (UPLOAD_DIR ++ "/" ++ "a.pdf") [7])
        (UPLOAD_DIR ++ "/" ++ "a.pdf") = some [7]) :=
  ⟨by decide, by decide,
   create_blob_path_spec stB "n" "d" "l" "a.pdf" [7] 2 2
     (by decide) (by decide)⟩

end CourseApp
